import Mathlib

/-!
Verification of the chat-with-pdf conversation front end and engine spec.

The frontend components are embedded from the TypeScript sources
(`ChatInterface.sendMessage`, `clearConversation`, `ToneSelector`,
`FollowUpQuestions`, `ChatMessage.sortedSources` / `getRelevanceTier`,
`SourceDetailModal.getRelevanceLabel`, `SettingsDialog.MemoryStats`).
The backend engine (Conversation Memory, Response Parser) is not part of
the checked-in sources, so those two components are modelled from the
spec, as marked on their definitions.

JavaScript numbers that only ever hold scores in [0,1] are modelled as
rationals; page numbers and conversation ids as integers; `Date`
timestamps are not modelled (no claim depends on them).
-/

namespace ChatWithPdf

/-- The five selectable response tones, from `tone-selector.tsx`
(`export type ResponseTone = "conversational" | "concise" | "detailed" |
"professional" | "simple"`). -/
inductive ResponseTone
  | conversational
  | concise
  | detailed
  | professional
  | simple
deriving DecidableEq, Fintype

/-- One entry of the `toneOptions` table in `tone-selector.tsx`; the
`icon` component reference is modelled by its name. -/
structure ToneOption where
  value : ResponseTone
  label : String
  icon : String
  description : String
  color : String
deriving DecidableEq

/-- The `toneOptions` table from `tone-selector.tsx`. -/
def toneOptions : List ToneOption :=
  [ ⟨ResponseTone.conversational, "Chat", "MessageSquare",
      "Friendly & natural like ChatGPT", "bg-blue-500 hover:bg-blue-600"⟩,
    ⟨ResponseTone.concise, "Brief", "Zap",
      "Short & to the point", "bg-purple-500 hover:bg-purple-600"⟩,
    ⟨ResponseTone.detailed, "Detailed", "BookOpen",
      "Comprehensive explanations", "bg-green-500 hover:bg-green-600"⟩,
    ⟨ResponseTone.professional, "Formal", "Briefcase",
      "Business & consultant style", "bg-gray-700 hover:bg-gray-800"⟩,
    ⟨ResponseTone.simple, "Simple", "GraduationCap",
      "Easy to understand", "bg-orange-500 hover:bg-orange-600"⟩ ]

/-- Message roles (`role: 'user' | 'assistant'`). -/
inductive Role
  | user
  | assistant
deriving DecidableEq

/-- Nested `metadata` of a retrieved source (`chat-message.tsx`). -/
structure SourceMetadata where
  full_content_length : Option Nat
  retrieval_position : Option Nat
  has_full_content : Option Bool
deriving DecidableEq

/-- A retrieved source chunk as the frontend receives it
(`chat-message.tsx` interface `Source`). -/
structure Source where
  page : Int
  content : String
  score : Option ℚ
  chunk_id : Option String
  source_file : Option String
  context_after : Option String
  metadata : Option SourceMetadata
deriving DecidableEq

/-- A transcript message (`chat-interface.tsx` interface `Message`);
the `Date` timestamp is not modelled. -/
structure Message where
  role : Role
  content : String
  sources : Option (List Source)
  followUpQuestions : Option (List String)
deriving DecidableEq

/-- The payload of a successful `POST /chat` response as `sendMessage`
reads it: `response.data.answer`, `.sources`, `.follow_up_questions`,
`.metadata?.conversation_id`. Absent or null JSON fields are `none`. -/
structure ChatResponseData where
  answer : String
  sources : Option (List Source)
  follow_up_questions : Option (List String)
  metadata_conversation_id : Option Int
deriving DecidableEq

/-- Outcome of the awaited `axios.post` call: either the parsed response
data or a thrown error (any network/HTTP failure). -/
inductive ChatOutcome
  | success (data : ChatResponseData)
  | failure
deriving DecidableEq

/-- The body `sendMessage` posts to the chat endpoint:
`{message, tone, conversation_id, conversation_history}`. -/
structure ChatRequest where
  message : String
  tone : ResponseTone
  conversation_id : Option Int
  conversation_history : List (Role × String)
deriving DecidableEq

/-- The `ChatInterface` component state touched by `sendMessage`,
`clearConversation` and friends (the `useState` hooks). -/
structure ChatState where
  messages : List Message
  loading : Bool
  error : Option String
  currentApiUrl : String
  selectedTone : ResponseTone
  sidebarOpen : Bool
  currentConversationId : Option Int
deriving DecidableEq

/-- The fixed error string `sendMessage` uses in its catch block. -/
def errorText : String :=
  "Sorry, there was an error processing your request. Please try again."

/-- JavaScript `String.prototype.trim`: strip leading and trailing
whitespace. -/
def jsTrim (s : String) : String :=
  String.mk (((s.data.dropWhile Char.isWhitespace).reverse.dropWhile
    Char.isWhitespace).reverse)

/-- The assistant `Message` built from a successful response in
`sendMessage`: `followUpQuestions: response.data.follow_up_questions || []`
(JavaScript `||` replaces only null/undefined, so an absent list becomes
the present empty list). -/
def assistantMessageOf (d : ChatResponseData) : Message :=
  { role := Role.assistant
    content := d.answer
    sources := d.sources
    followUpQuestions := some (d.follow_up_questions.getD []) }

/-- `sendMessage` from `chat-interface.tsx`, as a pure transition: given
the current component state, the input message and the outcome of the
HTTP call, it returns the new state and the request that was issued
(`none` when the early-return guard `if (!message.trim() || loading)`
fires and no request is made). The `conversation_history` is built from
the pre-append `messages` closure value, as in the source. -/
def sendMessage (s : ChatState) (message : String) (outcome : ChatOutcome) :
    ChatState × Option ChatRequest :=
  if (jsTrim message == "") || s.loading then (s, none)
  else
    let userMessage : Message :=
      { role := Role.user, content := message, sources := none, followUpQuestions := none }
    let req : ChatRequest :=
      { message := message
        tone := s.selectedTone
        conversation_id := s.currentConversationId
        conversation_history := s.messages.map fun m => (m.role, m.content) }
    let s1 : ChatState :=
      { s with messages := s.messages ++ [userMessage], loading := true, error := none }
    match outcome with
    | ChatOutcome.success d =>
      let s2 : ChatState := { s1 with messages := s1.messages ++ [assistantMessageOf d] }
      let s3 : ChatState :=
        match d.metadata_conversation_id with
        | some cid => { s2 with currentConversationId := some cid }
        | none => s2
      ({ s3 with loading := false }, some req)
    | ChatOutcome.failure =>
      let errMessage : Message :=
        { role := Role.assistant, content := errorText, sources := none,
          followUpQuestions := none }
      ({ s1 with
          error := some errorText
          messages := s1.messages ++ [errMessage]
          loading := false }, some req)

/-- `clearConversation` from `chat-interface.tsx`: empties the messages,
nulls the conversation id and clears the error. -/
def clearConversation (s : ChatState) : ChatState :=
  { s with messages := [], currentConversationId := none, error := none }

/-- What the `FollowUpQuestions` component renders: `null` when the
question list is missing or empty (`if (!questions || questions.length
=== 0) return null`), otherwise the block of question buttons. -/
inductive Rendered
  | nothing
  | block (questions : List String)
deriving DecidableEq

/-- The render function of `follow-up-questions.tsx`. -/
def FollowUpQuestions (questions : Option (List String)) : Rendered :=
  match questions with
  | none => Rendered.nothing
  | some qs => if qs.isEmpty then Rendered.nothing else Rendered.block qs

/-- The sort key of `sortedSources` in `chat-message.tsx`: a missing
score counts as 0 (`const scoreA = a.score ?? 0`). -/
def sourceKey (s : Source) : ℚ :=
  s.score.getD 0

/-- The comparator-induced order of `sortedSources`: the JavaScript
comparator `(a, b) => scoreB - scoreA` sorts by descending key. -/
def sourceGE (a b : Source) : Prop :=
  sourceKey b ≤ sourceKey a

instance : DecidableRel sourceGE := fun a b =>
  inferInstanceAs (Decidable (sourceKey b ≤ sourceKey a))

/-- `sortedSources` from `chat-message.tsx`: `[]` when `sources` is
undefined, otherwise a copy of the list stably sorted by descending
score (ECMAScript `Array.prototype.sort` is stable; the stable
descending sort is embedded as insertion sort under `sourceGE`). -/
def sortedSources (sources : Option (List Source)) : List Source :=
  match sources with
  | none => []
  | some l => l.insertionSort sourceGE

/-- The relevance tier card returned by `getRelevanceTier` in
`chat-message.tsx`. -/
structure TierInfo where
  tier : String
  color : String
  description : String
deriving DecidableEq

/-- `getRelevanceTier` from `chat-message.tsx`: `!score || score <= 0`
(undefined, zero or negative) is Unknown, then thresholds 0.8 and
0.65. -/
def getRelevanceTier (score : Option ℚ) : TierInfo :=
  match score with
  | none => ⟨"Unknown", "bg-gray-500", "Relevance not scored"⟩
  | some s =>
    if s ≤ 0 then ⟨"Unknown", "bg-gray-500", "Relevance not scored"⟩
    else if s ≥ 0.8 then
      ⟨"Highly Relevant", "bg-green-500", "Strong semantic match with your question"⟩
    else if s ≥ 0.65 then
      ⟨"Relevant", "bg-blue-500", "Good contextual relevance"⟩
    else
      ⟨"Supplementary", "bg-yellow-500", "Additional context that may be helpful"⟩

/-- Rank of a `getRelevanceTier` tier in the relevance order. -/
def tierRank : String → Nat
  | "Supplementary" => 1
  | "Relevant" => 2
  | "Highly Relevant" => 3
  | _ => 0

/-- The label card returned by `getRelevanceLabel` in
`source-detail-modal.tsx`. -/
structure LabelInfo where
  label : String
  color : String
deriving DecidableEq

/-- `getRelevanceLabel` from `source-detail-modal.tsx`: thresholds 0.9,
0.7, 0.5. -/
def getRelevanceLabel (score : ℚ) : LabelInfo :=
  if score ≥ 0.9 then ⟨"Highly Relevant", "bg-green-500"⟩
  else if score ≥ 0.7 then ⟨"Very Relevant", "bg-blue-500"⟩
  else if score ≥ 0.5 then ⟨"Relevant", "bg-yellow-500"⟩
  else ⟨"Somewhat Relevant", "bg-gray-500"⟩

/-- Rank of a `getRelevanceLabel` label in the relevance order. -/
def labelRank : String → Nat
  | "Relevant" => 1
  | "Very Relevant" => 2
  | "Highly Relevant" => 3
  | _ => 0

/-- The `MemoryStats` interface of `settings-dialog.tsx`, the
memory-stats object exchanged with the engine memory API. -/
structure MemoryStats where
  enabled : Bool
  window_size : Nat
  current_messages : Nat
  conversation_pairs : Nat
  at_capacity : Bool
deriving DecidableEq

/-- The field names of the `MemoryStats` interface in
`settings-dialog.tsx`, in declaration order. -/
def memoryStatsFields : List String :=
  ["enabled", "window_size", "current_messages", "conversation_pairs", "at_capacity"]

/-- The field names of `get_memory_stats` as written in the spec's
Engine API contract (the refinement side of the comparison). -/
def specMemoryStatsFields : List String :=
  ["enabled", "window_size", "pair_count", "at_capacity"]

/-- Modelled from the spec: a conversation turn of the engine
(`ConversationTurn: {role, content}`; the timestamp carries no claim and
is not modelled). The backend Conversation Memory implementation
(`rag_engine`) is not among the checked-in sources. -/
structure ConversationTurn where
  role : Role
  content : String
deriving DecidableEq

/-- Modelled from the spec: the Conversation Memory of one conversation
— a bounded, ordered buffer of user/assistant pairs with a configured
window size and an enabled flag. The backend implementation is not among
the checked-in sources. -/
structure Memory where
  pairs : List (String × String)
  windowSize : Nat
  enabled : Bool
deriving DecidableEq

/-- Modelled from the spec: a fresh enabled memory with the given
window size. -/
def Memory.emptyMem (n : Nat) : Memory :=
  { pairs := [], windowSize := n, enabled := true }

/-- Modelled from the spec: `record(user_text, assistant_text)` appends
a pair and synchronously evicts oldest pairs while the pair count
exceeds the window size (`memory trimming happens synchronously inside
record`, `evicting the oldest pair first when exceeded`). -/
def Memory.record (m : Memory) (u a : String) : Memory :=
  let ps := m.pairs ++ [(u, a)]
  { m with pairs := ps.drop (ps.length - m.windowSize) }

/-- Record a whole sequence of pairs in order. -/
def Memory.recordAll (m : Memory) (ps : List (String × String)) : Memory :=
  ps.foldl (fun acc p => acc.record p.1 p.2) m

/-- Modelled from the spec: `window()` returns up to `2 × window_size`
most recent turns in chronological order — each retained pair as its
user turn followed by its assistant turn — and the empty sequence when
memory is disabled. -/
def Memory.window (m : Memory) : List ConversationTurn :=
  if m.enabled then
    m.pairs.flatMap fun p => [⟨Role.user, p.1⟩, ⟨Role.assistant, p.2⟩]
  else []

/-- Modelled from the spec: `clear()` empties the buffer. -/
def Memory.clearMem (m : Memory) : Memory :=
  { m with pairs := [] }

/-- Modelled from the spec: a structured answer decoded from raw model
output (`StructuredAnswer` of §3; citations carry the page number — the
page markers in the raw text name pages only). The backend Response
Parser implementation is not among the checked-in sources. -/
structure StructuredAnswer where
  main_text : String
  key_points : List String
  requirements : List String
  steps : List String
  considerations : List String
  key_terms : List String
  citations : List Nat
  follow_up_questions : List String
deriving DecidableEq

/-- Modelled from the spec: the parser's only hard failure
(`ParseError{kind: empty_input}`). -/
inductive ParseError
  | empty_input
deriving DecidableEq

/-- Numeric value of a digit run. -/
def natOfDigits (ds : List Char) : Nat :=
  ds.foldl (fun acc c => 10 * acc + (c.toNat - 48)) 0

/-- Modelled from the spec: recognize a page-citation marker
`[Page N]` at the head of the character stream, returning its page
number. -/
def matchPageMarker (cs : List Char) : Option Nat :=
  if cs.take 6 = "[Page ".data then
    let rest := cs.drop 6
    let ds := rest.takeWhile Char.isDigit
    if ds ≠ [] ∧ (rest.dropWhile Char.isDigit).head? = some ']' then
      some (natOfDigits ds)
    else none
  else none

/-- Modelled from the spec: scan the whole raw text for page-citation
markers, in order of occurrence. -/
def scanCitations : List Char → List Nat
  | [] => []
  | c :: cs =>
    match matchPageMarker (c :: cs) with
    | some n => n :: scanCitations cs
    | none => scanCitations cs

/-- Modelled from the spec: deduplicate citations preserving first-seen
order. -/
def dedupFirst (l : List Nat) : List Nat :=
  l.foldl (fun acc n => if n ∈ acc then acc else acc ++ [n]) []

/-- The text before the first occurrence of a marker; the whole text
when the marker does not occur. -/
def beforeMarker (marker : List Char) : List Char → List Char
  | [] => []
  | c :: cs =>
    if marker.isPrefixOf (c :: cs) then []
    else c :: beforeMarker marker cs

/-- The text after the first occurrence of a marker; `none` when the
marker does not occur. -/
def afterMarker (marker : List Char) : List Char → Option (List Char)
  | [] => if marker = [] then some [] else none
  | c :: cs =>
    if marker.isPrefixOf (c :: cs) then some ((c :: cs).drop marker.length)
    else afterMarker marker cs

/-- Split a character stream at newlines (accumulator holds the current
line reversed). -/
def linesAux : List Char → List Char → List (List Char)
  | [], acc => [acc.reverse]
  | c :: cs, acc =>
    if c = '\n' then acc.reverse :: linesAux cs []
    else linesAux cs (c :: acc)

/-- The lines of a character stream. -/
def linesOf (cs : List Char) : List (List Char) :=
  linesAux cs []

/-- Modelled from the spec: the items of a headed subsection — the
trimmed non-empty lines following the line that carries the marker. -/
def itemsAfter (marker raw : String) : List String :=
  match afterMarker marker.data raw.data with
  | none => []
  | some rest =>
    (((linesOf rest).drop 1).map fun l => jsTrim (String.mk l)).takeWhile
      fun s => !(s == "")

/-- Modelled from the spec: the marker that delimits the trailing
follow-up-questions section. -/
def followUpMarker : String := "Follow-up questions:"

/-- Modelled from the spec: `main_text` is the raw text up to the
trailing follow-up section — the entire raw text when no marker
occurs. -/
def mainTextOf (raw : String) : String :=
  String.mk (beforeMarker followUpMarker.data raw.data)

/-- Modelled from the spec: `parse(raw_text) -> StructuredAnswer`, a
best-effort lossy decode built from independent extractors; its only
hard failure is empty input. The backend Response Parser implementation
is not among the checked-in sources. -/
def parse (raw : String) : Except ParseError StructuredAnswer :=
  if raw = "" then Except.error ParseError.empty_input
  else Except.ok
    { main_text := mainTextOf raw
      key_points := itemsAfter "**Key Points:**" raw
      requirements := itemsAfter "**Requirements:**" raw
      steps := itemsAfter "**Steps:**" raw
      considerations := itemsAfter "**Considerations:**" raw
      key_terms := itemsAfter "**Key Terms:**" raw
      citations := dedupFirst (scanCitations raw.data)
      follow_up_questions := itemsAfter followUpMarker raw }

/-- The initial `ChatInterface` state (the `useState` initial values,
with the default API URL). -/
def initialChatState : ChatState :=
  { messages := []
    loading := false
    error := none
    currentApiUrl := "http://localhost:8000/api/v1/chat"
    selectedTone := ResponseTone.conversational
    sidebarOpen := false
    currentConversationId := none }

end ChatWithPdf

namespace ChatWithPdf

/-- C3: the selectable tones are exactly the enumerated five.
`toneOptions` lists `conversational, concise, detailed, professional,
simple` in that order, every value of the `ResponseTone` type occurs in
the table exactly once, and the table has no other entries. -/
theorem toneOptions_exactly_five_tones :
    toneOptions.map ToneOption.value =
      [ResponseTone.conversational, ResponseTone.concise, ResponseTone.detailed,
        ResponseTone.professional, ResponseTone.simple] ∧
    (∀ t : ResponseTone, (toneOptions.map ToneOption.value).count t = 1) := by
  constructor
  · rfl
  · intro t
    cases t <;> rfl

/-- C1 counterexample: on a failing chat request, `sendMessage` does
append a default assistant answer message (the fixed error text) to the
transcript — starting from the initial state with input "hi" and a
thrown HTTP call, the resulting transcript contains an assistant message
whose content is the canned error string. -/
theorem sendMessage_failure_appends_default_assistant_message :
    Message.mk Role.assistant errorText none none ∈
      (sendMessage initialChatState "hi" ChatOutcome.failure).1.messages := by
  decide

/-- C1 (amended): on a failing chat request (guard not taken), the user
sees a single typed error — `error` is set to the fixed error string —
and additionally `sendMessage` appends exactly one assistant message
carrying that same fixed error text to the transcript (never an empty or
response-derived default answer); `loading` ends false and all other
state fields are unchanged. -/
theorem sendMessage_failure_single_typed_error
    (s : ChatState) (message : String)
    (hmsg : (jsTrim message == "") = false) (hload : s.loading = false) :
    sendMessage s message ChatOutcome.failure =
      ({ s with
          messages := s.messages ++
            [⟨Role.user, message, none, none⟩,
              ⟨Role.assistant, errorText, none, none⟩]
          loading := false
          error := some errorText },
        some ⟨message, s.selectedTone, s.currentConversationId,
          s.messages.map fun m => (m.role, m.content)⟩) := by
  unfold sendMessage
  simp [hmsg, hload]

/-- C1 witness: the amended statement at the initial state and input "hi". -/
theorem sendMessage_failure_single_typed_error_at_hi :
    sendMessage initialChatState "hi" ChatOutcome.failure =
      ({ initialChatState with
          messages := [⟨Role.user, "hi", none, none⟩,
            ⟨Role.assistant, errorText, none, none⟩]
          loading := false
          error := some errorText },
        some ⟨"hi", ResponseTone.conversational, none, []⟩) :=
  sendMessage_failure_single_typed_error initialChatState "hi" rfl rfl

/-- C4: when a successful chat response has no `follow_up_questions`
field, the assistant message stored by `sendMessage` carries the present
empty list (not null), it is the last transcript entry, and the
`FollowUpQuestions` component renders nothing for an empty or missing
question list. -/
theorem absent_followups_stored_empty_and_render_nothing
    (s : ChatState) (message : String) (d : ChatResponseData)
    (hmsg : (jsTrim message == "") = false) (hload : s.loading = false)
    (hf : d.follow_up_questions = none) :
    ((sendMessage s message (ChatOutcome.success d)).1.messages.getLast?
        = some (assistantMessageOf d)) ∧
    (assistantMessageOf d).followUpQuestions = some [] ∧
    FollowUpQuestions ((assistantMessageOf d).followUpQuestions) = Rendered.nothing ∧
    FollowUpQuestions none = Rendered.nothing := by
  refine ⟨?_, ?_, ?_, rfl⟩
  · unfold sendMessage
    simp only [hmsg, hload, Bool.or_self, Bool.false_eq_true, if_false]
    cases hm : d.metadata_conversation_id <;> simp [hm]
  · simp [assistantMessageOf, hf]
  · simp [FollowUpQuestions, assistantMessageOf, hf]

/-- C4 witness: the statement at the initial state, input "hi" and a
response whose `follow_up_questions` is absent. -/
theorem absent_followups_stored_empty_at_hi :
    ((sendMessage initialChatState "hi"
        (ChatOutcome.success ⟨"ans", none, none, none⟩)).1.messages.getLast?
        = some (assistantMessageOf ⟨"ans", none, none, none⟩)) ∧
    (assistantMessageOf ⟨"ans", none, none, none⟩).followUpQuestions = some [] ∧
    FollowUpQuestions ((assistantMessageOf ⟨"ans", none, none, none⟩).followUpQuestions)
        = Rendered.nothing ∧
    FollowUpQuestions none = Rendered.nothing :=
  absent_followups_stored_empty_and_render_nothing initialChatState "hi"
    ⟨"ans", none, none, none⟩ rfl rfl rfl

/-- C7: clearing a conversation is idempotent — clearing twice equals
clearing once, and a cleared state has empty messages, null conversation
id and null error. -/
theorem clearConversation_idempotent (s : ChatState) :
    clearConversation (clearConversation s) = clearConversation s ∧
    (clearConversation s).messages = [] ∧
    (clearConversation s).currentConversationId = none ∧
    (clearConversation s).error = none :=
  ⟨rfl, rfl, rfl, rfl⟩

/-- C9: the implicit guard of `sendMessage` — for a blank (empty or
whitespace-only) message, or while a previous request is in flight
(`loading = true`), `sendMessage` issues no request and leaves the whole
component state unchanged. -/
theorem sendMessage_guard_no_request_no_change
    (s : ChatState) (message : String) (outcome : ChatOutcome)
    (h : (jsTrim message == "") = true ∨ s.loading = true) :
    sendMessage s message outcome = (s, none) := by
  unfold sendMessage
  rcases h with h | h <;> simp [h]

/-- C9 witness: the guard at the initial (non-loading) state with a
whitespace-only message. -/
theorem sendMessage_guard_at_blank :
    sendMessage initialChatState "   " ChatOutcome.failure =
      (initialChatState, none) :=
  sendMessage_guard_no_request_no_change initialChatState "   "
    ChatOutcome.failure (Or.inl rfl)

/-- Inserting a source into a list leaves the sublist of any fixed key
value unchanged: `orderedInsert` under `sourceGE` walks only past
elements of strictly greater key, so it never reorders equal keys. -/
theorem filter_key_orderedInsert (q : ℚ) (a : Source) (l : List Source) :
    (l.orderedInsert sourceGE a).filter (fun s => decide (sourceKey s = q)) =
      ((a :: l).filter fun s => decide (sourceKey s = q)) := by
  induction l with
  | nil => rfl
  | cons b l ih =>
    by_cases h : sourceGE a b
    · rw [List.orderedInsert_of_le _ _ h]
    · rw [List.orderedInsert, if_neg h]
      by_cases hb : sourceKey b = q <;> by_cases ha : sourceKey a = q
      · exact absurd (show sourceGE a b from le_of_eq (hb.trans ha.symm)) h
      · simp [List.filter_cons, hb, ha, ih]
      · simp [List.filter_cons, hb, ha, ih]
      · simp [List.filter_cons, hb, ha, ih]

/-- Stability of the embedded sort: for every key value, the sources
holding that key appear in the sorted output in their original retrieval
order. -/
theorem filter_key_sortedSources (q : ℚ) (l : List Source) :
    (sortedSources (some l)).filter (fun s => decide (sourceKey s = q)) =
      (l.filter fun s => decide (sourceKey s = q)) := by
  induction l with
  | nil => rfl
  | cons a l ih =>
    have h1 : sortedSources (some (a :: l)) =
        (sortedSources (some l)).orderedInsert sourceGE a := rfl
    rw [h1, filter_key_orderedInsert]
    by_cases ha : sourceKey a = q <;> simp [List.filter_cons, ha, ih]

/-- C2: `sortedSources` is a permutation of the retrieved sources,
sorted by descending score where a missing score counts as 0, and the
sort is stable — sources of equal score keep their original retrieval
order; an absent source list yields the empty list. -/
theorem sortedSources_desc_stable_perm (l : List Source) :
    (sortedSources (some l)).Perm l ∧
    (sortedSources (some l)).Sorted sourceGE ∧
    (∀ q : ℚ, (sortedSources (some l)).filter (fun s => decide (sourceKey s = q)) =
      (l.filter fun s => decide (sourceKey s = q))) ∧
    sortedSources none = [] := by
  haveI : IsTotal Source sourceGE := ⟨fun a b => (le_total (sourceKey b) (sourceKey a)).imp id id⟩
  haveI : IsTrans Source sourceGE := ⟨fun _ _ _ h₁ h₂ => le_trans h₂ h₁⟩
  exact ⟨List.perm_insertionSort sourceGE l, List.sorted_insertionSort sourceGE l,
    fun q => filter_key_sortedSources q l, rfl⟩

/-- C10: both score classifiers are total on [0,1] — every score gets
exactly one tier out of the enumerated ones — and monotone
non-decreasing: a lower score never gets a higher tier in the relevance
order. -/
theorem relevance_classifiers_monotone (a b : ℚ)
    (h0 : 0 ≤ a) (hab : a ≤ b) (h1 : b ≤ 1) :
    tierRank (getRelevanceTier (some a)).tier ≤
      tierRank (getRelevanceTier (some b)).tier ∧
    labelRank (getRelevanceLabel a).label ≤
      labelRank (getRelevanceLabel b).label ∧
    (getRelevanceTier (some a)).tier ∈
      ["Unknown", "Supplementary", "Relevant", "Highly Relevant"] ∧
    (getRelevanceLabel a).label ∈
      ["Somewhat Relevant", "Relevant", "Very Relevant", "Highly Relevant"] := by
  refine ⟨?_, ?_, ?_, ?_⟩
  · simp only [getRelevanceTier]
    split_ifs <;> first | decide | (exfalso; linarith)
  · simp only [getRelevanceLabel]
    split_ifs <;> first | decide | (exfalso; linarith)
  · simp only [getRelevanceTier]
    split_ifs <;> decide
  · simp only [getRelevanceLabel]
    split_ifs <;> decide

/-- C10 witness: the classifiers at the concrete scores 1/2 and 9/10. -/
theorem relevance_classifiers_monotone_at_half :
    tierRank (getRelevanceTier (some ((1 : ℚ)/2))).tier ≤
      tierRank (getRelevanceTier (some ((9 : ℚ)/10))).tier ∧
    labelRank (getRelevanceLabel ((1 : ℚ)/2)).label ≤
      labelRank (getRelevanceLabel ((9 : ℚ)/10)).label ∧
    (getRelevanceTier (some ((1 : ℚ)/2))).tier ∈
      ["Unknown", "Supplementary", "Relevant", "Highly Relevant"] ∧
    (getRelevanceLabel ((1 : ℚ)/2)).label ∈
      ["Somewhat Relevant", "Relevant", "Very Relevant", "Highly Relevant"] :=
  relevance_classifiers_monotone ((1 : ℚ)/2) ((9 : ℚ)/10)
    (by norm_num) (by norm_num) (by norm_num)

/-- C8 counterexample: the memory-stats object the frontend exchanges
with the engine memory API does not carry the spec's `pair_count` field
— it carries `conversation_pairs` and an extra `current_messages` — so
its field set is not the spec's `{enabled, window_size, pair_count,
at_capacity}`. -/
theorem memoryStatsFields_ne_spec :
    "pair_count" ∈ specMemoryStatsFields ∧
    "pair_count" ∉ memoryStatsFields ∧
    "current_messages" ∈ memoryStatsFields ∧
    "current_messages" ∉ specMemoryStatsFields ∧
    memoryStatsFields ≠ specMemoryStatsFields := by
  decide

/-- Each retained pair contributes one user and one assistant turn to
the rendered window. -/
theorem turns_length (l : List (String × String)) :
    (l.flatMap fun p => [ConversationTurn.mk Role.user p.1,
      ConversationTurn.mk Role.assistant p.2]).length = 2 * l.length := by
  induction l with
  | nil => rfl
  | cons p l ih =>
    simp only [List.flatMap_cons, List.length_append, List.length_cons,
      List.length_nil, ih]
    omega

/-- Trimming after every `record` keeps exactly the most recent
`windowSize` pairs: recording a batch onto a within-capacity memory
leaves the suffix of the combined pair sequence that fits the window,
and never touches the window size or the enabled flag. -/
theorem Memory.recordAll_pairs (ps : List (String × String)) (m : Memory)
    (hm : m.pairs.length ≤ m.windowSize) :
    (m.recordAll ps).pairs =
      (m.pairs ++ ps).drop ((m.pairs ++ ps).length - m.windowSize) ∧
    (m.recordAll ps).windowSize = m.windowSize ∧
    (m.recordAll ps).enabled = m.enabled := by
  induction ps generalizing m with
  | nil =>
    refine ⟨?_, rfl, rfl⟩
    have h0 : (m.pairs ++ ([] : List (String × String))).length - m.windowSize = 0 := by
      simp only [List.append_nil]
      omega
    rw [h0, List.drop_zero, List.append_nil]
    rfl
  | cons p ps ih =>
    have hrec : (m.record p.1 p.2).pairs =
        (m.pairs ++ [p]).drop ((m.pairs ++ [p]).length - m.windowSize) := rfl
    have hws : (m.record p.1 p.2).windowSize = m.windowSize := rfl
    have hen : (m.record p.1 p.2).enabled = m.enabled := rfl
    have hlen : (m.record p.1 p.2).pairs.length ≤ (m.record p.1 p.2).windowSize := by
      rw [hrec, hws, List.length_drop]
      omega
    obtain ⟨h1, h2, h3⟩ := ih (m.record p.1 p.2) hlen
    have hstep : m.recordAll (p :: ps) = (m.record p.1 p.2).recordAll ps := rfl
    refine ⟨?_, ?_, ?_⟩
    · rw [hstep, h1, hws, hrec]
      have hd : (m.pairs ++ [p]).length - m.windowSize ≤ (m.pairs ++ [p]).length := by
        omega
      rw [← List.drop_append_of_le_length hd, List.drop_drop]
      have hassoc : (m.pairs ++ [p]) ++ ps = m.pairs ++ p :: ps := by
        rw [List.append_assoc]
        rfl
      rw [hassoc]
      congr 1
      simp only [List.length_drop, List.length_append, List.length_cons,
        List.length_nil]
      omega
    · rw [hstep, h2, hws]
    · rw [hstep, h3, hen]

/-- C5: for every window size n, after any sequence of `record` calls
starting from a fresh memory the buffer holds at most n pairs, what it
holds is exactly the most recent pairs (the recorded sequence with its
oldest overflow dropped first), and after recording n+1 pairs the
oldest pair has been evicted and `window()` returns exactly 2n
turns. -/
theorem memory_bounded_evicts_oldest (n : Nat) (ps : List (String × String)) :
    ((Memory.emptyMem n).recordAll ps).pairs.length ≤ n ∧
    ((Memory.emptyMem n).recordAll ps).pairs = ps.drop (ps.length - n) ∧
    (ps.length = n + 1 →
      ((Memory.emptyMem n).recordAll ps).pairs = ps.drop 1 ∧
      ((Memory.emptyMem n).recordAll ps).window.length = 2 * n) := by
  obtain ⟨h1, h2, h3⟩ :=
    Memory.recordAll_pairs ps (Memory.emptyMem n) (Nat.zero_le n)
  have hp : ((Memory.emptyMem n).recordAll ps).pairs = ps.drop (ps.length - n) := by
    rw [h1]
    rfl
  refine ⟨?_, hp, ?_⟩
  · rw [hp, List.length_drop]
    omega
  · intro hlen
    have hdrop1 : ps.drop (ps.length - n) = ps.drop 1 := by
      rw [hlen]
      congr 1
      omega
    refine ⟨hp.trans hdrop1, ?_⟩
    have hen : ((Memory.emptyMem n).recordAll ps).enabled = true := h3
    rw [Memory.window, if_pos hen, turns_length, hp, hdrop1,
      List.length_drop, hlen]
    omega

/-- C5 witness: window size 1, recording the two pairs (a, b) then
(c, d) — the buffer keeps only the newer pair and the window holds
exactly two turns. -/
theorem memory_bounded_evicts_oldest_at_one :
    ((Memory.emptyMem 1).recordAll [("a", "b"), ("c", "d")]).pairs =
      [("a", "b"), ("c", "d")].drop 1 ∧
    ((Memory.emptyMem 1).recordAll [("a", "b"), ("c", "d")]).window.length = 2 * 1 :=
  (memory_bounded_evicts_oldest 1 [("a", "b"), ("c", "d")]).2.2 rfl

/-- C6: the Response Parser is total on non-empty input — every
non-empty raw text decodes to a `StructuredAnswer` — and it fails
exactly on the empty input, with `ParseError.empty_input`. -/
theorem parse_total_and_fails_iff_empty (raw : String) :
    (raw = "" → parse raw = Except.error ParseError.empty_input) ∧
    (raw ≠ "" → ∃ sa : StructuredAnswer, parse raw = Except.ok sa) := by
  constructor
  · intro h
    simp [parse, h]
  · intro h
    exact ⟨{ main_text := mainTextOf raw
             key_points := itemsAfter "**Key Points:**" raw
             requirements := itemsAfter "**Requirements:**" raw
             steps := itemsAfter "**Steps:**" raw
             considerations := itemsAfter "**Considerations:**" raw
             key_terms := itemsAfter "**Key Terms:**" raw
             citations := dedupFirst (scanCitations raw.data)
             follow_up_questions := itemsAfter followUpMarker raw },
      by simp [parse, h]⟩

/-- C6 witness: the boundary inputs — the empty string fails with
`empty_input`, a plain text parses successfully. -/
theorem parse_total_at_boundary :
    parse "" = Except.error ParseError.empty_input ∧
    ∃ sa : StructuredAnswer,
      parse "just plain text, no markers" = Except.ok sa :=
  ⟨(parse_total_and_fails_iff_empty "").1 rfl,
    (parse_total_and_fails_iff_empty "just plain text, no markers").2 (by decide)⟩

/-- The spec's boundary example evaluated on the model: a plain text
with no markers collapses entirely into `main_text` with every optional
field empty. -/
theorem parse_plain_text_collapses_to_main_text :
    parse "just plain text, no markers" =
      Except.ok
        { main_text := "just plain text, no markers"
          key_points := []
          requirements := []
          steps := []
          considerations := []
          key_terms := []
          citations := []
          follow_up_questions := [] } := by
  rfl

/-- C8 (amended): the memory-stats object contains exactly the five
distinct fields `enabled`, `window_size`, `current_messages`,
`conversation_pairs`, `at_capacity` — the pair count travels as
`conversation_pairs`, not `pair_count`, alongside a message count. -/
theorem memoryStatsFields_exact :
    memoryStatsFields =
      ["enabled", "window_size", "current_messages",
        "conversation_pairs", "at_capacity"] ∧
    memoryStatsFields.Nodup := by
  decide

end ChatWithPdf
